import Mathlib

/-!
# blog-api: the in-memory store and its access gate

A shallow embedding of `main.go`: the handlers `SignUp`, `SignIn`, `CreatePost`,
`GetPosts`, `AddComment` and the gate `getUsernameFromRequest`, as pure functions
from a request and a store to the response written and the store afterwards.

Conventions of the embedding.

* Go's `int` is modelled by `Int`. The counter `nextID` starts at 1 and grows by one
  per stored post, and a comment id is the length of a slice plus one, so the 64-bit
  wrap-around is out of reach of any execution and is not modelled.
* A Go `map[K]V` is an association list read through `mapGet` (first match) and
  written through `mapSet` (which drops every older entry of the key).
* `time.Time` is an `Int` count of nanoseconds since the Unix epoch.
* The libraries the handlers call (`encoding/json`, `strconv`, `bcrypt`, `jwt-go`,
  the cookie jar of `net/http`) are not part of the repository. Their results are
  inputs: the decoded payloads and the cookie lookup are fields of `Request`, the
  cryptographic functions and the clock are fields of `Env`.
-/

namespace BlogApi

/-! ## Go maps -/

/-- The value stored under `k`, as in `v, exists := m[k]`. -/
def mapGet {κ α : Type} [DecidableEq κ] : List (κ × α) → κ → Option α
  | [], _ => none
  | e :: m, k => if e.1 = k then some e.2 else mapGet m k

/-- The assignment `m[k] = v`: any older entry of `k` is replaced. -/
def mapSet {κ α : Type} [DecidableEq κ] (m : List (κ × α)) (k : κ) (v : α) : List (κ × α) :=
  (k, v) :: m.filter (fun e => !decide (e.1 = k))

/-- The number of entries stored under `k`. -/
def mapCount {κ α : Type} [DecidableEq κ] (m : List (κ × α)) (k : κ) : Nat :=
  m.countP (fun e => e.1 = k)

/-! ## Data model (lines 18-60) -/

/-- The type `Credentials`. -/
structure Credentials where
  Username : String
  Password : String
deriving DecidableEq

/-- The type `Claims`: the username and the `ExpiresAt` of the embedded standard claims. -/
structure Claims where
  Username : String
  ExpiresAt : Int
deriving DecidableEq

/-- The type `User`; `Password` holds the bcrypt hash. -/
structure User where
  Username : String
  Password : String
deriving DecidableEq

/-- The type `Comment`. -/
structure Comment where
  ID : Int
  Content : String
  Author : String
  CreatedAt : Int
deriving DecidableEq

/-- The type `Post`. -/
structure Post where
  ID : Int
  Title : String
  Content : String
  Author : String
  CreatedAt : Int
  Comments : List Comment
deriving DecidableEq

/-- The type `Store`, without its mutex: a handler run on its own holds the lock for
the whole of each critical section. -/
structure Store where
  users : List (String × User)
  posts : List (Int × Post)
  nextID : Int
deriving DecidableEq

/-- The variable `store` as initialised at line 56. -/
def initStore : Store :=
  { users := [], posts := [], nextID := 1 }

/-! ## Requests, responses, environment -/

/-- The outcome of `r.Cookie("token")`. -/
inductive CookieLookup where
  | errNoCookie
  | errOther
  | found (value : String)
deriving DecidableEq

/-- The outcome of `jwt.ParseWithClaims(tokenStr, claims, keyFunc)`: the error
compared at line 210, or, without error, `tkn.Valid` and `claims.Username`. -/
inductive ParseOutcome where
  | errSignatureInvalid
  | errOther
  | parsed (valid : Bool) (username : String)
deriving DecidableEq

/-- Why the token library refuses a token. -/
inductive TokenFault where
  | malformed
  | signatureInvalid
  | expired
deriving DecidableEq

/-- How jwt-go hands a refusal to its caller: whatever the fault, `ParseWithClaims`
returns a `*ValidationError` (for a bad signature the sentinel `ErrSignatureInvalid`
is only the `Inner` field of that value), which the comparison of line 210 never
finds equal to the sentinel; and `Valid` is set exactly when no error is returned,
so a refusal never comes as `parsed false`. -/
def reportFault : TokenFault → ParseOutcome
  | TokenFault.malformed => ParseOutcome.errOther
  | TokenFault.signatureInvalid => ParseOutcome.errOther
  | TokenFault.expired => ParseOutcome.errOther

/-- What a request carries: the cookie lookup, `strconv.Atoi(mux.Vars(r)["id"])`
(`none` when it returns an error), and the result of decoding the body into each of
the three payload types (`none` when `Decode` returns an error). -/
structure Request where
  cookie : CookieLookup
  postID : Option Int
  credsBody : Option Credentials
  postBody : Option Post
  commentBody : Option Comment
deriving DecidableEq

/-- The library calls whose result depends on the secret, the salt or the clock. -/
structure Env where
  /-- `bcrypt.GenerateFromPassword(pw, bcrypt.DefaultCost)`; `none` is an error. -/
  generateFromPassword : String → Option String
  /-- `bcrypt.CompareHashAndPassword(hash, pw) == nil`. -/
  compareHashAndPassword : String → String → Bool
  /-- `token.SignedString(jwtKey)` for an HS256 token of the claims; `none` is an error. -/
  signedString : Claims → Option String
  /-- `jwt.ParseWithClaims` against `jwtKey`. -/
  parseWithClaims : String → ParseOutcome
  /-- `time.Now()`. -/
  now : Int

/-- The cookie set by `SignIn`. -/
structure Cookie where
  Name : String
  Value : String
  Expires : Int
deriving DecidableEq

/-- What is written as a response body. -/
inductive Body where
  | text (msg : String)
  | post (p : Post)
  | comment (c : Comment)
  | posts (ps : List Post)
deriving DecidableEq

/-- The state of an `http.ResponseWriter`: the code given to `WriteHeader` (`none`
as long as it was not called), the body written, the cookie set. -/
structure ResponseWriter where
  status : Option Nat
  body : Option Body
  cookie : Option Cookie
deriving DecidableEq

/-- The writer a handler receives: nothing written yet. -/
def ResponseWriter.fresh : ResponseWriter :=
  { status := none, body := none, cookie := none }

/-- The call `http.Error(w, msg, code)`. -/
def httpError (w : ResponseWriter) (msg : String) (code : Nat) : ResponseWriter :=
  { w with status := some code, body := some (Body.text msg) }

/-- The call `w.WriteHeader(code)`. -/
def writeHeader (w : ResponseWriter) (code : Nat) : ResponseWriter :=
  { w with status := some code }

/-- The call `json.NewEncoder(w).Encode(v)`. -/
def encode (w : ResponseWriter) (b : Body) : ResponseWriter :=
  { w with body := some b }

/-- The call `http.SetCookie(w, c)`. -/
def setCookie (w : ResponseWriter) (c : Cookie) : ResponseWriter :=
  { w with cookie := some c }

/-! ## The access gate (lines 193-222) -/

/-- The function `getUsernameFromRequest`: the writer afterwards and the string returned. -/
def getUsernameFromRequest (env : Env) (r : Request) (w : ResponseWriter) :
    ResponseWriter × String :=
  match r.cookie with
  | CookieLookup.errNoCookie => (httpError w "Unauthorized" 401, "")
  | CookieLookup.errOther => (httpError w "Bad request" 400, "")
  | CookieLookup.found tokenStr =>
    match env.parseWithClaims tokenStr with
    | ParseOutcome.errSignatureInvalid => (httpError w "Unauthorized" 401, "")
    | ParseOutcome.errOther => (httpError w "Bad request" 400, "")
    | ParseOutcome.parsed valid username =>
      if !valid then (httpError w "Unauthorized" 401, "")
      else (w, username)

/-! ## Handlers -/

/-- The handler `SignUp` (lines 62-80). -/
def SignUp (env : Env) (r : Request) (s : Store) : ResponseWriter × Store :=
  let w := ResponseWriter.fresh
  match r.credsBody with
  | none => (httpError w "Invalid request payload" 400, s)
  | some creds =>
    match env.generateFromPassword creds.Password with
    | none => (httpError w "Failed to create user" 500, s)
    | some hashedPassword =>
      (writeHeader w 201,
        { s with users := mapSet s.users creds.Username
                   { Username := creds.Username, Password := hashedPassword } })

/-- The value `time.Now().Add(5 * time.Minute)`. -/
def expirationTime (env : Env) : Int :=
  env.now + 5 * 60 * 1000000000

/-- The method `Unix()`: whole seconds since the epoch. -/
def unixSeconds (t : Int) : Int :=
  t / 1000000000

/-- The handler `SignIn` (lines 82-118). -/
def SignIn (env : Env) (r : Request) (s : Store) : ResponseWriter × Store :=
  let w := ResponseWriter.fresh
  match r.credsBody with
  | none => (httpError w "Invalid request payload" 400, s)
  | some creds =>
    let accepted : Bool :=
      match mapGet s.users creds.Username with
      | none => false
      | some user => env.compareHashAndPassword user.Password creds.Password
    if !accepted then (httpError w "Invalid username or password" 401, s)
    else
      let claims : Claims :=
        { Username := creds.Username, ExpiresAt := unixSeconds (expirationTime env) }
      match env.signedString claims with
      | none => (httpError w "Failed to create token" 500, s)
      | some tokenString =>
        (setCookie w { Name := "token", Value := tokenString, Expires := expirationTime env }, s)

/-- Lines 121-134 of `CreatePost`, which run without the lock: the gate, the decoding
and the filling of the local `post`, whose `ID` is read from `store.nextID` here.
`none` stands for an early return. -/
def createPostPrepare (env : Env) (r : Request) (s : Store) : ResponseWriter × Option Post :=
  let g := getUsernameFromRequest env r ResponseWriter.fresh
  if g.2 = "" then (g.1, none)
  else
    match r.postBody with
    | none => (httpError g.1 "Invalid request payload" 400, none)
    | some post =>
      (g.1, some { post with Author := g.2, ID := s.nextID, CreatedAt := env.now, Comments := [] })

/-- Lines 136-139 of `CreatePost`, the critical section. -/
def createPostCommit (post : Post) (s : Store) : Store :=
  { s with posts := mapSet s.posts s.nextID post, nextID := s.nextID + 1 }

/-- Lines 141-142 of `CreatePost`. -/
def createPostRespond (w : ResponseWriter) (post : Post) : ResponseWriter :=
  encode (writeHeader w 201) (Body.post post)

/-- The handler `CreatePost` (lines 120-143), run without interference. -/
def CreatePost (env : Env) (r : Request) (s : Store) : ResponseWriter × Store :=
  match createPostPrepare env r s with
  | (w, none) => (w, s)
  | (w, some post) => (createPostRespond w post, createPostCommit post s)

/-- The handler `GetPosts` (lines 145-155). The order in which Go ranges over a map
is unspecified; the order of the association list stands for the one taken. -/
def GetPosts (_env : Env) (_r : Request) (s : Store) : ResponseWriter × Store :=
  (encode ResponseWriter.fresh (Body.posts (s.posts.map Prod.snd)), s)

/-- The handler `AddComment` (lines 157-191). -/
def AddComment (env : Env) (r : Request) (s : Store) : ResponseWriter × Store :=
  let g := getUsernameFromRequest env r ResponseWriter.fresh
  if g.2 = "" then (g.1, s)
  else
    match r.postID with
    | none => (httpError g.1 "Invalid post ID" 400, s)
    | some postID =>
      match r.commentBody with
      | none => (httpError g.1 "Invalid request payload" 400, s)
      | some payload =>
        let comment : Comment := { payload with Author := g.2, CreatedAt := env.now }
        match mapGet s.posts postID with
        | none => (httpError g.1 "Post not found" 404, s)
        | some post =>
          let comment : Comment := { comment with ID := (post.Comments.length : Int) + 1 }
          let post : Post := { post with Comments := post.Comments ++ [comment] }
          (encode (writeHeader g.1 201) (Body.comment comment),
            { s with posts := mapSet s.posts postID post })

/-! ## Sequences of requests -/

/-- The routes registered in `main` (lines 227-231). -/
inductive Route where
  | signUp
  | signIn
  | createPost
  | getPosts
  | addComment
deriving DecidableEq

/-- One request served: its route, the environment it runs in, what it carries. -/
structure Call where
  route : Route
  env : Env
  req : Request

/-- The handler of a call, applied to the store. -/
def serve (c : Call) (s : Store) : ResponseWriter × Store :=
  match c.route with
  | Route.signUp => SignUp c.env c.req s
  | Route.signIn => SignIn c.env c.req s
  | Route.createPost => CreatePost c.env c.req s
  | Route.getPosts => GetPosts c.env c.req s
  | Route.addComment => AddComment c.env c.req s

/-- The store after serving the calls one after the other. -/
def run (s : Store) : List Call → Store
  | [] => s
  | c :: cs => run (serve c s).2 cs

/-- The ids of the comments returned by the successful `AddComment` calls on post
`pid`, in the order the calls are served. -/
def commentIDsOn (pid : Int) (s : Store) : List Call → List Int
  | [] => []
  | c :: cs =>
    let out := serve c s
    let rest := commentIDsOn pid out.2 cs
    if c.route = Route.addComment ∧ c.req.postID = some pid ∧ out.1.status = some 201 then
      match out.1.body with
      | some (Body.comment cm) => cm.ID :: rest
      | _ => rest
    else rest

/-- The ids `1, 2, ..., n`. -/
def idsUpTo (n : Nat) : List Int :=
  (List.range n).map (fun (i : Nat) => (i : Int) + 1)

/-- The store invariant: the counter is positive, the keys are exactly the ids below
the counter, each once, every post carries its key, and the comments of every post
are numbered from 1 in sequence order. -/
structure StoreInv (s : Store) : Prop where
  nextID_pos : 1 ≤ s.nextID
  keys : ∀ k : Int, (mapGet s.posts k).isSome ↔ (1 ≤ k ∧ k < s.nextID)
  keys_once : ∀ k : Int, mapCount s.posts k ≤ 1
  id_eq_key : ∀ (k : Int) (p : Post), mapGet s.posts k = some p → p.ID = k
  comment_ids : ∀ (k : Int) (p : Post), mapGet s.posts k = some p →
    p.Comments.map Comment.ID = idsUpTo p.Comments.length

/-- The number of comments stored under post `pid`, 0 when there is no such post. -/
def commentCount (s : Store) (pid : Int) : Nat :=
  match mapGet s.posts pid with
  | some p => p.Comments.length
  | none => 0

/-! ## Concurrent `CreatePost` -/

/-- Where a `CreatePost` goroutine stands: before line 121, between line 134 and the
lock with its writer and local `post`, or returned with the response written. -/
inductive ThreadState where
  | ready
  | prepared (w : ResponseWriter) (post : Post)
  | done (w : ResponseWriter)
deriving DecidableEq

/-- The next atomic step of a goroutine: lines 121-134 (one read of the shared
counter), then the critical section followed by the response. -/
def threadStep (env : Env) (r : Request) (t : ThreadState) (s : Store) : ThreadState × Store :=
  match t with
  | ThreadState.ready =>
    match createPostPrepare env r s with
    | (w, none) => (ThreadState.done w, s)
    | (w, some post) => (ThreadState.prepared w post, s)
  | ThreadState.prepared w post =>
    (ThreadState.done (createPostRespond w post), createPostCommit post s)
  | ThreadState.done w => (ThreadState.done w, s)

/-- The scheduler lets goroutine `i` take its next step. -/
def schedStep (reqs : List (Env × Request)) (cfg : List ThreadState × Store) (i : Nat) :
    List ThreadState × Store :=
  match reqs.get? i, cfg.1.get? i with
  | some (env, r), some t =>
    ((cfg.1.set i (threadStep env r t cfg.2).1), (threadStep env r t cfg.2).2)
  | _, _ => cfg

/-- The goroutines of `reqs` run under the schedule `sched` from the store `s`. -/
def runSchedule (reqs : List (Env × Request)) (sched : List Nat) (s : Store) :
    List ThreadState × Store :=
  sched.foldl (schedStep reqs) (reqs.map (fun _ => ThreadState.ready), s)

/-- The post id a goroutine answered with, if it answered with a post. -/
def respondedID : ThreadState → Option Int
  | ThreadState.done w =>
    match w.body with
    | some (Body.post p) => some p.ID
    | _ => none
  | _ => none

/-! ## Concrete inputs -/

/-- An environment for the examples: hashing prepends a marker, a token is the marker
`t:` followed by the username it was signed for, `t:forged` is a token of carol whose
signature does not verify, `t:stale` a token of carol past its expiry, and any other
string is malformed; the three refusals are reported the way jwt-go does. -/
def demoEnv : Env :=
  { generateFromPassword := fun pw => some ("h:" ++ pw)
    compareHashAndPassword := fun h pw => decide (h = "h:" ++ pw)
    signedString := fun c => some ("t:" ++ c.Username)
    parseWithClaims := fun tok =>
      if tok = "t:alice" then ParseOutcome.parsed true "alice"
      else if tok = "t:bob" then ParseOutcome.parsed true "bob"
      else if tok = "t:" then ParseOutcome.parsed true ""
      else if tok = "t:forged" then reportFault TokenFault.signatureInvalid
      else if tok = "t:stale" then reportFault TokenFault.expired
      else reportFault TokenFault.malformed
    now := 1700000000000000000 }

/-- A request without cookie, id or payload. -/
def bareReq : Request :=
  { cookie := CookieLookup.errNoCookie, postID := none, credsBody := none,
    postBody := none, commentBody := none }

/-- A post payload in which the client also supplied an id, an author, a date and a
comment. -/
def helloPayload : Post :=
  { ID := 77, Title := "Hello", Content := "World", Author := "mallory", CreatedAt := 5,
    Comments := [{ ID := 9, Content := "x", Author := "mallory", CreatedAt := 5 }] }

/-- The same post payload without fields beyond title and content. -/
def helloPlain : Post :=
  { ID := 0, Title := "Hello", Content := "World", Author := "", CreatedAt := 0, Comments := [] }

/-- A comment payload in which the client also supplied an id, an author and a date. -/
def nicePayload : Comment :=
  { ID := 42, Content := "nice", Author := "mallory", CreatedAt := 5 }

/-- The same comment payload with the content only. -/
def nicePlain : Comment :=
  { ID := 0, Content := "nice", Author := "", CreatedAt := 0 }

/-- Alice creates a post. -/
def aliceCreate : Request :=
  { bareReq with cookie := CookieLookup.found "t:alice", postBody := some helloPayload }

/-- Bob creates a post. -/
def bobCreate : Request :=
  { bareReq with cookie := CookieLookup.found "t:bob", postBody := some helloPlain }

/-- Alice comments on post 1. -/
def aliceComment : Request :=
  { bareReq with cookie := CookieLookup.found "t:alice", postID := some 1,
                 commentBody := some nicePayload }

/-- Alice comments on post 5. -/
def aliceCommentFive : Request :=
  { aliceComment with postID := some 5 }

/-- A request whose cookie holds a token with a signature that does not verify. -/
def forgedTokenReq : Request :=
  { bareReq with cookie := CookieLookup.found "t:forged", postID := some 1,
                 postBody := some helloPayload, commentBody := some nicePayload }

/-- A request whose cookie holds a token past its expiry. -/
def staleTokenReq : Request :=
  { bareReq with cookie := CookieLookup.found "t:stale", postID := some 1,
                 postBody := some helloPayload, commentBody := some nicePayload }

/-- A request whose cookie holds a string that is no token. -/
def garbageTokenReq : Request :=
  { bareReq with cookie := CookieLookup.found "garbage", postID := some 1,
                 postBody := some helloPayload, commentBody := some nicePayload }

/-- A request whose token verifies and carries the empty username. -/
def emptyUserReq : Request :=
  { bareReq with cookie := CookieLookup.found "t:", postID := some 1,
                 postBody := some helloPayload, commentBody := some nicePayload }

/-- The credentials payload of a user. -/
def credsReq (u p : String) : Request :=
  { bareReq with credsBody := some { Username := u, Password := p } }

/-- Alice creates a post, comments on it twice, bob creates a post in between, and a
comment on the unknown post 5 fails. -/
def demoCalls : List Call :=
  [ { route := Route.createPost, env := demoEnv, req := aliceCreate },
    { route := Route.addComment, env := demoEnv, req := aliceComment },
    { route := Route.createPost, env := demoEnv, req := bobCreate },
    { route := Route.addComment, env := demoEnv, req := aliceCommentFive },
    { route := Route.addComment, env := demoEnv, req := aliceComment } ]

/-- One more post by bob. -/
def moreCalls : List Call :=
  [ { route := Route.createPost, env := demoEnv, req := bobCreate } ]

/-- Two goroutines serving `CreatePost`, one for alice and one for bob. -/
def raceReqs : List (Env × Request) :=
  [(demoEnv, aliceCreate), (demoEnv, bobCreate)]

/-- Both goroutines run lines 121-134 before either takes the lock. -/
def raceSchedule : List Nat :=
  [0, 1, 0, 1]

/-- The first goroutine returns before the second starts. -/
def serialSchedule : List Nat :=
  [0, 0, 1, 1]

/-- The store holding one post of alice under key 1. -/
def onePostStore : Store :=
  (CreatePost demoEnv aliceCreate initStore).2

/-! ## Go maps: the lemmas -/

theorem mapGet_filter_ne {κ α : Type} [DecidableEq κ] (m : List (κ × α)) (k k' : κ)
    (h : k' ≠ k) : mapGet (m.filter (fun e => !decide (e.1 = k))) k' = mapGet m k' := by
  induction m with
  | nil => rfl
  | cons e m ih =>
    by_cases hk : e.1 = k
    · have hk' : ¬ e.1 = k' := fun h' => h (h'.symm.trans hk)
      rw [List.filter_cons_of_neg (by simp [hk]), ih]
      simp [mapGet, hk']
    · rw [List.filter_cons_of_pos (by simp [hk])]
      by_cases hk' : e.1 = k'
      · simp [mapGet, hk']
      · simp [mapGet, hk', ih]

theorem mapGet_mapSet_self {κ α : Type} [DecidableEq κ] (m : List (κ × α)) (k : κ) (v : α) :
    mapGet (mapSet m k v) k = some v := by
  simp [mapSet, mapGet]

theorem mapGet_mapSet_ne {κ α : Type} [DecidableEq κ] (m : List (κ × α)) (k k' : κ) (v : α)
    (h : k' ≠ k) : mapGet (mapSet m k v) k' = mapGet m k' := by
  have hk : ¬ k = k' := fun h' => h h'.symm
  unfold mapSet
  rw [mapGet, if_neg hk, mapGet_filter_ne m k k' h]

theorem mapCount_filter_self {κ α : Type} [DecidableEq κ] (m : List (κ × α)) (k : κ) :
    mapCount (m.filter (fun e => !decide (e.1 = k))) k = 0 := by
  simp [mapCount, List.countP_eq_zero]

theorem mapCount_filter_ne {κ α : Type} [DecidableEq κ] (m : List (κ × α)) (k k' : κ)
    (h : k' ≠ k) : mapCount (m.filter (fun e => !decide (e.1 = k))) k' = mapCount m k' := by
  induction m with
  | nil => rfl
  | cons e m ih =>
    unfold mapCount at ih ⊢
    by_cases hk : e.1 = k
    · have hk' : ¬ e.1 = k' := fun h' => h (h'.symm.trans hk)
      rw [List.filter_cons_of_neg (by simp [hk]), ih]
      simp [List.countP_cons, hk']
    · rw [List.filter_cons_of_pos (by simp [hk])]
      simp [List.countP_cons, ih]

theorem mapCount_mapSet_self {κ α : Type} [DecidableEq κ] (m : List (κ × α)) (k : κ) (v : α) :
    mapCount (mapSet m k v) k = 1 := by
  have h := mapCount_filter_self m k
  unfold mapCount at h
  unfold mapCount mapSet
  rw [List.countP_cons, h]
  simp

theorem mapCount_mapSet_ne {κ α : Type} [DecidableEq κ] (m : List (κ × α)) (k k' : κ) (v : α)
    (h : k' ≠ k) : mapCount (mapSet m k v) k' = mapCount m k' := by
  have hk : ¬ k = k' := fun h' => h h'.symm
  have h2 := mapCount_filter_ne m k k' h
  unfold mapCount at h2
  unfold mapCount mapSet
  rw [List.countP_cons, h2]
  simp [hk]

/-! ## The gate -/

/-- A gate that returns a non-empty string has written nothing. -/
theorem gate_writer_of_ne_empty (env : Env) (r : Request) (w : ResponseWriter)
    (h : (getUsernameFromRequest env r w).2 ≠ "") : (getUsernameFromRequest env r w).1 = w := by
  unfold getUsernameFromRequest at h ⊢
  cases hc : r.cookie with
  | errNoCookie => simp [hc] at h
  | errOther => simp [hc] at h
  | found tok =>
    simp only [hc] at h ⊢
    cases hp : env.parseWithClaims tok with
    | errSignatureInvalid => simp [hp] at h
    | errOther => simp [hp] at h
    | parsed valid username =>
      cases valid with
      | false => simp [hp] at h
      | true => simp

/-! ## CreatePost -/

/-- The post `CreatePost` builds from a payload for the user `u` in the store `s`. -/
theorem createPostPrepare_ok (env : Env) (r : Request) (s : Store) (payload : Post)
    (hu : (getUsernameFromRequest env r ResponseWriter.fresh).2 ≠ "")
    (hbody : r.postBody = some payload) :
    createPostPrepare env r s =
      (ResponseWriter.fresh,
        some { ID := s.nextID, Title := payload.Title, Content := payload.Content,
               Author := (getUsernameFromRequest env r ResponseWriter.fresh).2,
               CreatedAt := env.now, Comments := [] }) := by
  have hw := gate_writer_of_ne_empty env r ResponseWriter.fresh hu
  unfold createPostPrepare
  simp only [if_neg hu, hbody, hw]

/-- C1. `CreatePost` served on its own, for a non-empty username `u` returned by the
gate and a payload that decodes: the response is 201 with a post `p` whose id is the
old `nextID`, whose author is `u`, whose comments are empty and whose title and
content are the payload's; afterwards the store maps the old `nextID` to `p`, the
counter is one higher, and every other post and the accounts are as before. -/
theorem CreatePost_contract (env : Env) (r : Request) (s : Store) (u : String) (payload : Post)
    (hgate : (getUsernameFromRequest env r ResponseWriter.fresh).2 = u) (hu : u ≠ "")
    (hbody : r.postBody = some payload) :
    ∃ p : Post,
      (CreatePost env r s).1 =
        { status := some 201, body := some (Body.post p), cookie := none } ∧
      p.ID = s.nextID ∧ p.Author = u ∧ p.Comments = [] ∧
      p.Title = payload.Title ∧ p.Content = payload.Content ∧ p.CreatedAt = env.now ∧
      mapGet (CreatePost env r s).2.posts s.nextID = some p ∧
      (CreatePost env r s).2.nextID = s.nextID + 1 ∧
      (∀ k : Int, k ≠ s.nextID → mapGet (CreatePost env r s).2.posts k = mapGet s.posts k) ∧
      (CreatePost env r s).2.users = s.users := by
  subst hgate
  have hprep := createPostPrepare_ok env r s payload hu hbody
  refine ⟨{ ID := s.nextID, Title := payload.Title, Content := payload.Content,
            Author := (getUsernameFromRequest env r ResponseWriter.fresh).2,
            CreatedAt := env.now, Comments := [] }, ?_, rfl, rfl, rfl, rfl, rfl, rfl, ?_, ?_, ?_, ?_⟩
  · simp only [CreatePost, hprep]
    rfl
  · simp only [CreatePost, hprep, createPostCommit]
    exact mapGet_mapSet_self _ _ _
  · simp only [CreatePost, hprep, createPostCommit]
  · intro k hk
    simp only [CreatePost, hprep, createPostCommit]
    exact mapGet_mapSet_ne _ _ _ _ hk
  · simp only [CreatePost, hprep, createPostCommit]

/-- The contract of `CreatePost` at alice's first post in the initial store. -/
theorem CreatePost_contract_witness :
    (getUsernameFromRequest demoEnv aliceCreate ResponseWriter.fresh).2 = "alice" ∧
    "alice" ≠ "" ∧ aliceCreate.postBody = some helloPayload ∧
    ∃ p : Post,
      (CreatePost demoEnv aliceCreate initStore).1 =
        { status := some 201, body := some (Body.post p), cookie := none } ∧
      p.ID = initStore.nextID ∧ p.Author = "alice" ∧ p.Comments = [] ∧
      p.Title = helloPayload.Title ∧ p.Content = helloPayload.Content ∧
      p.CreatedAt = demoEnv.now ∧
      mapGet (CreatePost demoEnv aliceCreate initStore).2.posts initStore.nextID = some p ∧
      (CreatePost demoEnv aliceCreate initStore).2.nextID = initStore.nextID + 1 ∧
      (∀ k : Int, k ≠ initStore.nextID →
        mapGet (CreatePost demoEnv aliceCreate initStore).2.posts k = mapGet initStore.posts k) ∧
      (CreatePost demoEnv aliceCreate initStore).2.users = initStore.users :=
  ⟨by decide, by decide, rfl,
    CreatePost_contract demoEnv aliceCreate initStore "alice" helloPayload
      (by decide) (by decide) rfl⟩

/-! ## The gate: which failure is answered how -/

/-- A token the library refuses, for whatever fault, is answered 400 Bad Request:
the refusal is no `ErrSignatureInvalid` for line 210 and leaves no token for line 217. -/
theorem gate_of_reported_fault (env : Env) (r : Request) (w : ResponseWriter) (tok : String)
    (fault : TokenFault) (hc : r.cookie = CookieLookup.found tok)
    (hp : env.parseWithClaims tok = reportFault fault) :
    getUsernameFromRequest env r w = (httpError w "Bad request" 400, "") := by
  cases fault <;> simp [getUsernameFromRequest, hc, hp, reportFault]

/-- C3 fails on the code. A request without the cookie is answered 401 Unauthorized,
but a token that is present and fails verification is not: the token of
`forgedTokenReq`, whose signature does not verify, and the token of `staleTokenReq`,
which is expired, are both answered 400 Bad Request, like the malformed string of
`garbageTokenReq`. Lines 210-213 and 217-220 are written to answer 401 for them and
are never reached with the errors the token library returns. No username is returned
in any of the four cases. -/
theorem gate_rejected_token_is_bad_request :
    getUsernameFromRequest demoEnv bareReq ResponseWriter.fresh =
      ({ status := some 401, body := some (Body.text "Unauthorized"), cookie := none }, "") ∧
    forgedTokenReq.cookie = CookieLookup.found "t:forged" ∧
    demoEnv.parseWithClaims "t:forged" = reportFault TokenFault.signatureInvalid ∧
    getUsernameFromRequest demoEnv forgedTokenReq ResponseWriter.fresh =
      ({ status := some 400, body := some (Body.text "Bad request"), cookie := none }, "") ∧
    staleTokenReq.cookie = CookieLookup.found "t:stale" ∧
    demoEnv.parseWithClaims "t:stale" = reportFault TokenFault.expired ∧
    getUsernameFromRequest demoEnv staleTokenReq ResponseWriter.fresh =
      ({ status := some 400, body := some (Body.text "Bad request"), cookie := none }, "") ∧
    garbageTokenReq.cookie = CookieLookup.found "garbage" ∧
    demoEnv.parseWithClaims "garbage" = reportFault TokenFault.malformed ∧
    getUsernameFromRequest demoEnv garbageTokenReq ResponseWriter.fresh =
      ({ status := some 400, body := some (Body.text "Bad request"), cookie := none }, "") := by
  decide

/-- The gate returns a non-empty string exactly for a token that parses, is valid
and carries a non-empty username. -/
theorem gate_username_ne_empty_iff (env : Env) (r : Request) (w : ResponseWriter) :
    (getUsernameFromRequest env r w).2 ≠ "" ↔
      ∃ tok u, r.cookie = CookieLookup.found tok ∧
        env.parseWithClaims tok = ParseOutcome.parsed true u ∧ u ≠ "" := by
  unfold getUsernameFromRequest
  cases hc : r.cookie with
  | errNoCookie => simp
  | errOther => simp
  | found tok =>
    cases hp : env.parseWithClaims tok with
    | errSignatureInvalid => simp [hp]
    | errOther => simp [hp]
    | parsed valid username =>
      cases valid with
      | false => simp [hp]
      | true => simp [hp]

/-- The gate never answers 201: it answers 401 or 400 or writes nothing. -/
theorem gate_status_ne_created (env : Env) (r : Request) :
    (getUsernameFromRequest env r ResponseWriter.fresh).1.status ≠ some 201 := by
  unfold getUsernameFromRequest
  cases hc : r.cookie with
  | errNoCookie => simp [httpError]
  | errOther => simp [httpError]
  | found tok =>
    cases hp : env.parseWithClaims tok with
    | errSignatureInvalid => simp [hp, httpError]
    | errOther => simp [hp, httpError]
    | parsed valid username =>
      cases valid with
      | false => simp [hp, httpError]
      | true => simp [hp, ResponseWriter.fresh]

/-! ## The handlers, branch by branch -/

theorem CreatePost_of_empty (env : Env) (r : Request) (s : Store)
    (h : (getUsernameFromRequest env r ResponseWriter.fresh).2 = "") :
    CreatePost env r s = ((getUsernameFromRequest env r ResponseWriter.fresh).1, s) := by
  simp only [CreatePost, createPostPrepare, if_pos h]

theorem CreatePost_of_no_payload (env : Env) (r : Request) (s : Store)
    (h : (getUsernameFromRequest env r ResponseWriter.fresh).2 ≠ "")
    (hbody : r.postBody = none) :
    CreatePost env r s = (httpError ResponseWriter.fresh "Invalid request payload" 400, s) := by
  have hw := gate_writer_of_ne_empty env r ResponseWriter.fresh h
  simp only [CreatePost, createPostPrepare, if_neg h, hbody, hw]

theorem CreatePost_ok (env : Env) (r : Request) (s : Store) (payload : Post)
    (h : (getUsernameFromRequest env r ResponseWriter.fresh).2 ≠ "")
    (hbody : r.postBody = some payload) :
    CreatePost env r s =
      (createPostRespond ResponseWriter.fresh
          { ID := s.nextID, Title := payload.Title, Content := payload.Content,
            Author := (getUsernameFromRequest env r ResponseWriter.fresh).2,
            CreatedAt := env.now, Comments := [] },
        createPostCommit
          { ID := s.nextID, Title := payload.Title, Content := payload.Content,
            Author := (getUsernameFromRequest env r ResponseWriter.fresh).2,
            CreatedAt := env.now, Comments := [] } s) := by
  simp only [CreatePost, createPostPrepare_ok env r s payload h hbody]

theorem AddComment_of_empty (env : Env) (r : Request) (s : Store)
    (h : (getUsernameFromRequest env r ResponseWriter.fresh).2 = "") :
    AddComment env r s = ((getUsernameFromRequest env r ResponseWriter.fresh).1, s) := by
  simp only [AddComment, if_pos h]

theorem AddComment_of_no_id (env : Env) (r : Request) (s : Store)
    (h : (getUsernameFromRequest env r ResponseWriter.fresh).2 ≠ "")
    (hid : r.postID = none) :
    AddComment env r s = (httpError ResponseWriter.fresh "Invalid post ID" 400, s) := by
  have hw := gate_writer_of_ne_empty env r ResponseWriter.fresh h
  simp only [AddComment, if_neg h, hid, hw]

theorem AddComment_of_no_payload (env : Env) (r : Request) (s : Store) (pid : Int)
    (h : (getUsernameFromRequest env r ResponseWriter.fresh).2 ≠ "")
    (hid : r.postID = some pid) (hbody : r.commentBody = none) :
    AddComment env r s = (httpError ResponseWriter.fresh "Invalid request payload" 400, s) := by
  have hw := gate_writer_of_ne_empty env r ResponseWriter.fresh h
  simp only [AddComment, if_neg h, hid, hbody, hw]

theorem AddComment_of_not_found (env : Env) (r : Request) (s : Store) (pid : Int)
    (payload : Comment)
    (h : (getUsernameFromRequest env r ResponseWriter.fresh).2 ≠ "")
    (hid : r.postID = some pid) (hbody : r.commentBody = some payload)
    (hpost : mapGet s.posts pid = none) :
    AddComment env r s = (httpError ResponseWriter.fresh "Post not found" 404, s) := by
  have hw := gate_writer_of_ne_empty env r ResponseWriter.fresh h
  simp only [AddComment, if_neg h, hid, hbody, hpost, hw]

theorem AddComment_ok (env : Env) (r : Request) (s : Store) (pid : Int)
    (payload : Comment) (post : Post)
    (h : (getUsernameFromRequest env r ResponseWriter.fresh).2 ≠ "")
    (hid : r.postID = some pid) (hbody : r.commentBody = some payload)
    (hpost : mapGet s.posts pid = some post) :
    AddComment env r s =
      (encode (writeHeader ResponseWriter.fresh 201)
          (Body.comment
            { ID := (post.Comments.length : Int) + 1, Content := payload.Content,
              Author := (getUsernameFromRequest env r ResponseWriter.fresh).2,
              CreatedAt := env.now }),
        { s with
          posts := mapSet s.posts pid
            { post with
              Comments := post.Comments ++
                [{ ID := (post.Comments.length : Int) + 1, Content := payload.Content,
                   Author := (getUsernameFromRequest env r ResponseWriter.fresh).2,
                   CreatedAt := env.now }] } }) := by
  have hw := gate_writer_of_ne_empty env r ResponseWriter.fresh h
  simp only [AddComment, if_neg h, hid, hbody, hpost, hw]

theorem SignUp_ok (env : Env) (r : Request) (s : Store) (u p h : String)
    (hbody : r.credsBody = some { Username := u, Password := p })
    (hhash : env.generateFromPassword p = some h) :
    SignUp env r s =
      (writeHeader ResponseWriter.fresh 201,
        { s with users := mapSet s.users u { Username := u, Password := h } }) := by
  simp only [SignUp, hbody, hhash]

theorem SignIn_rejected (env : Env) (r : Request) (s : Store) (u p : String)
    (hbody : r.credsBody = some { Username := u, Password := p })
    (hrej : ∀ user : User, mapGet s.users u = some user →
      env.compareHashAndPassword user.Password p = false) :
    SignIn env r s = (httpError ResponseWriter.fresh "Invalid username or password" 401, s) := by
  unfold SignIn
  simp only [hbody]
  cases hm : mapGet s.users u with
  | none => simp
  | some user => simp [hrej user hm]

theorem SignIn_accepted (env : Env) (r : Request) (s : Store) (u p : String) (user : User)
    (hbody : r.credsBody = some { Username := u, Password := p })
    (hm : mapGet s.users u = some user)
    (hcmp : env.compareHashAndPassword user.Password p = true) :
    SignIn env r s =
      match env.signedString { Username := u, ExpiresAt := unixSeconds (expirationTime env) } with
      | none => (httpError ResponseWriter.fresh "Failed to create token" 500, s)
      | some tokenString =>
        (setCookie ResponseWriter.fresh
          { Name := "token", Value := tokenString, Expires := expirationTime env }, s) := by
  unfold SignIn
  simp only [hbody, hm, hcmp]
  simp

/-- A handler that went past the gate answers with a status code. -/
theorem CreatePost_status_of_ne_empty (env : Env) (r : Request) (s : Store)
    (h : (getUsernameFromRequest env r ResponseWriter.fresh).2 ≠ "") :
    (CreatePost env r s).1.status ≠ none := by
  cases hb : r.postBody with
  | none => simp [CreatePost_of_no_payload env r s h hb, httpError]
  | some payload =>
    simp [CreatePost_ok env r s payload h hb, createPostRespond, encode, writeHeader]

/-- A handler that went past the gate answers with a status code. -/
theorem AddComment_status_of_ne_empty (env : Env) (r : Request) (s : Store)
    (h : (getUsernameFromRequest env r ResponseWriter.fresh).2 ≠ "") :
    (AddComment env r s).1.status ≠ none := by
  cases hid : r.postID with
  | none => simp [AddComment_of_no_id env r s h hid, httpError]
  | some pid =>
    cases hb : r.commentBody with
    | none => simp [AddComment_of_no_payload env r s pid h hid hb, httpError]
    | some payload =>
      cases hp : mapGet s.posts pid with
      | none => simp [AddComment_of_not_found env r s pid payload h hid hb hp, httpError]
      | some post =>
        simp [AddComment_ok env r s pid payload post h hid hb hp, encode, writeHeader]

/-! ## The empty username -/

/-- C10. For a token that verifies and carries the empty username, `CreatePost` and
`AddComment` return with nothing written (no status, no body) and the store as it
was; such a token is what `SignIn` issues after `SignUp` with the empty username.
In general a handler stops at the gate, with what the gate wrote and the store
untouched, exactly when the gate returned the empty string. -/
theorem empty_username_is_gate_failure (env : Env) (r : Request) (s : Store) :
    (∀ tok : String, r.cookie = CookieLookup.found tok →
      env.parseWithClaims tok = ParseOutcome.parsed true "" →
      CreatePost env r s = ({ status := none, body := none, cookie := none }, s) ∧
      AddComment env r s = ({ status := none, body := none, cookie := none }, s)) ∧
    (CreatePost env r s = ((getUsernameFromRequest env r ResponseWriter.fresh).1, s) ↔
      (getUsernameFromRequest env r ResponseWriter.fresh).2 = "") ∧
    (AddComment env r s = ((getUsernameFromRequest env r ResponseWriter.fresh).1, s) ↔
      (getUsernameFromRequest env r ResponseWriter.fresh).2 = "") ∧
    (∀ (envUp envIn : Env) (rUp rIn : Request) (p h tok : String),
      rUp.credsBody = some { Username := "", Password := p } →
      rIn.credsBody = some { Username := "", Password := p } →
      envUp.generateFromPassword p = some h →
      envIn.compareHashAndPassword h p = true →
      envIn.signedString { Username := "", ExpiresAt := unixSeconds (expirationTime envIn) }
        = some tok →
      (SignIn envIn rIn (SignUp envUp rUp s).2).1.cookie =
        some { Name := "token", Value := tok, Expires := expirationTime envIn }) := by
  refine ⟨?_, ?_, ?_, ?_⟩
  · intro tok hc hp
    have hg : getUsernameFromRequest env r ResponseWriter.fresh = (ResponseWriter.fresh, "") := by
      simp [getUsernameFromRequest, hc, hp]
    have h2 : (getUsernameFromRequest env r ResponseWriter.fresh).2 = "" := by rw [hg]
    rw [CreatePost_of_empty env r s h2, AddComment_of_empty env r s h2, hg]
    exact ⟨rfl, rfl⟩
  · constructor
    · intro heq
      by_contra hne
      have hst := CreatePost_status_of_ne_empty env r s hne
      rw [heq, gate_writer_of_ne_empty env r ResponseWriter.fresh hne] at hst
      exact hst rfl
    · exact CreatePost_of_empty env r s
  · constructor
    · intro heq
      by_contra hne
      have hst := AddComment_status_of_ne_empty env r s hne
      rw [heq, gate_writer_of_ne_empty env r ResponseWriter.fresh hne] at hst
      exact hst rfl
    · exact AddComment_of_empty env r s
  · intro envUp envIn rUp rIn p h tok hUp hIn hhash hcmp hsign
    rw [SignUp_ok envUp rUp s "" p h hUp hhash]
    rw [SignIn_accepted envIn rIn _ "" p { Username := "", Password := h } hIn
      (mapGet_mapSet_self _ _ _) hcmp, hsign]
    rfl

/-- The empty username at work: the token `t:` verifies with the empty username and
both handlers return without a word; the token is the one issued to the account with
the empty name. -/
theorem empty_username_is_gate_failure_witness :
    (CreatePost demoEnv emptyUserReq onePostStore =
        ({ status := none, body := none, cookie := none }, onePostStore) ∧
      AddComment demoEnv emptyUserReq onePostStore =
        ({ status := none, body := none, cookie := none }, onePostStore)) ∧
    (SignIn demoEnv (credsReq "" "pw") (SignUp demoEnv (credsReq "" "pw") onePostStore).2).1.cookie =
      some { Name := "token", Value := "t:", Expires := expirationTime demoEnv } :=
  ⟨(empty_username_is_gate_failure demoEnv emptyUserReq onePostStore).1 "t:" rfl (by decide),
   (empty_username_is_gate_failure demoEnv emptyUserReq onePostStore).2.2.2
     demoEnv demoEnv (credsReq "" "pw") (credsReq "" "pw") "pw" "h:pw" "t:"
     rfl rfl (by decide) (by decide) (by decide)⟩

/-! ## Failures leave the store alone -/

/-- C4. A `CreatePost` or `AddComment` request that is not answered 201 leaves the
store as it was, so that `GetPosts` answers as before. The requests answered 201 are
exactly those that pass the gate with a non-empty username and a payload that
decodes, and for `AddComment` an id that parses and is a key of the store: a missing
token, a token that fails verification, an id that does not parse, a payload that
does not decode and an unknown post id all are failures. -/
theorem failed_request_leaves_store (env : Env) (r : Request) (s : Store) :
    ((CreatePost env r s).1.status ≠ some 201 →
      (CreatePost env r s).2 = s ∧
      ∀ (e : Env) (q : Request), GetPosts e q (CreatePost env r s).2 = GetPosts e q s) ∧
    ((AddComment env r s).1.status ≠ some 201 →
      (AddComment env r s).2 = s ∧
      ∀ (e : Env) (q : Request), GetPosts e q (AddComment env r s).2 = GetPosts e q s) ∧
    ((CreatePost env r s).1.status = some 201 ↔
      ((getUsernameFromRequest env r ResponseWriter.fresh).2 ≠ "" ∧ r.postBody ≠ none)) ∧
    ((AddComment env r s).1.status = some 201 ↔
      ((getUsernameFromRequest env r ResponseWriter.fresh).2 ≠ "" ∧ r.commentBody ≠ none ∧
        ∃ pid : Int, r.postID = some pid ∧ mapGet s.posts pid ≠ none)) := by
  have hC : (CreatePost env r s).1.status = some 201 ↔
      ((getUsernameFromRequest env r ResponseWriter.fresh).2 ≠ "" ∧ r.postBody ≠ none) := by
    by_cases hg : (getUsernameFromRequest env r ResponseWriter.fresh).2 = ""
    · rw [CreatePost_of_empty env r s hg]
      simp [hg, gate_status_ne_created env r]
    · cases hb : r.postBody with
      | none => simp [CreatePost_of_no_payload env r s hg hb, httpError, hg]
      | some payload =>
        simp [CreatePost_ok env r s payload hg hb, createPostRespond, encode, writeHeader, hg]
  have hA : (AddComment env r s).1.status = some 201 ↔
      ((getUsernameFromRequest env r ResponseWriter.fresh).2 ≠ "" ∧ r.commentBody ≠ none ∧
        ∃ pid : Int, r.postID = some pid ∧ mapGet s.posts pid ≠ none) := by
    by_cases hg : (getUsernameFromRequest env r ResponseWriter.fresh).2 = ""
    · rw [AddComment_of_empty env r s hg]
      simp [hg, gate_status_ne_created env r]
    · cases hid : r.postID with
      | none => simp [AddComment_of_no_id env r s hg hid, httpError]
      | some pid =>
        cases hb : r.commentBody with
        | none => simp [AddComment_of_no_payload env r s pid hg hid hb, httpError]
        | some payload =>
          cases hp : mapGet s.posts pid with
          | none =>
            simp [AddComment_of_not_found env r s pid payload hg hid hb hp, httpError, hp]
          | some post =>
            simp [AddComment_ok env r s pid payload post hg hid hb hp, encode, writeHeader,
              hg, hp]
  have hCs : (CreatePost env r s).1.status ≠ some 201 → (CreatePost env r s).2 = s := by
    intro hne
    by_cases hg : (getUsernameFromRequest env r ResponseWriter.fresh).2 = ""
    · rw [CreatePost_of_empty env r s hg]
    · cases hb : r.postBody with
      | none => rw [CreatePost_of_no_payload env r s hg hb]
      | some payload =>
        exact absurd (hC.mpr ⟨hg, by simp [hb]⟩) hne
  have hAs : (AddComment env r s).1.status ≠ some 201 → (AddComment env r s).2 = s := by
    intro hne
    by_cases hg : (getUsernameFromRequest env r ResponseWriter.fresh).2 = ""
    · rw [AddComment_of_empty env r s hg]
    · cases hid : r.postID with
      | none => rw [AddComment_of_no_id env r s hg hid]
      | some pid =>
        cases hb : r.commentBody with
        | none => rw [AddComment_of_no_payload env r s pid hg hid hb]
        | some payload =>
          cases hp : mapGet s.posts pid with
          | none => rw [AddComment_of_not_found env r s pid payload hg hid hb hp]
          | some post =>
            exact absurd (hA.mpr ⟨hg, by simp [hb], pid, hid, by simp [hp]⟩) hne
  refine ⟨?_, ?_, hC, hA⟩
  · intro hne
    refine ⟨hCs hne, ?_⟩
    intro e q
    rw [hCs hne]
  · intro hne
    refine ⟨hAs hne, ?_⟩
    intro e q
    rw [hAs hne]

/-- A `CreatePost` with a string that is no token and an `AddComment` on the unknown
post 5 leave the store with one post as it is. -/
theorem failed_request_leaves_store_witness :
    ((CreatePost demoEnv garbageTokenReq onePostStore).2 = onePostStore ∧
      ∀ (e : Env) (q : Request),
        GetPosts e q (CreatePost demoEnv garbageTokenReq onePostStore).2 =
          GetPosts e q onePostStore) ∧
    ((AddComment demoEnv aliceCommentFive onePostStore).2 = onePostStore ∧
      ∀ (e : Env) (q : Request),
        GetPosts e q (AddComment demoEnv aliceCommentFive onePostStore).2 =
          GetPosts e q onePostStore) :=
  ⟨(failed_request_leaves_store demoEnv garbageTokenReq onePostStore).1 (by decide),
   (failed_request_leaves_store demoEnv aliceCommentFive onePostStore).2.1 (by decide)⟩

/-! ## Accounts -/

/-- C9. For every store, username `u` and password `p` whose hashing succeeds with
`h`, `SignUp` answers 201 and leaves exactly one account under `u`, holding `h`,
whatever was stored under `u` before; every other account, the posts and `nextID`
are as before. A second `SignUp` of `u` with another password leaves only the hash of
the second one. -/
theorem SignUp_overwrites (env : Env) (r : Request) (s : Store) (u p h : String)
    (hbody : r.credsBody = some { Username := u, Password := p })
    (hhash : env.generateFromPassword p = some h) :
    (SignUp env r s).1 = { status := some 201, body := none, cookie := none } ∧
    mapGet (SignUp env r s).2.users u = some { Username := u, Password := h } ∧
    mapCount (SignUp env r s).2.users u = 1 ∧
    (∀ v : String, v ≠ u →
      mapGet (SignUp env r s).2.users v = mapGet s.users v ∧
      mapCount (SignUp env r s).2.users v = mapCount s.users v) ∧
    (SignUp env r s).2.posts = s.posts ∧
    (SignUp env r s).2.nextID = s.nextID ∧
    (∀ (env2 : Env) (r2 : Request) (p2 h2 : String),
      r2.credsBody = some { Username := u, Password := p2 } →
      env2.generateFromPassword p2 = some h2 →
      (SignUp env2 r2 (SignUp env r s).2).1 =
        { status := some 201, body := none, cookie := none } ∧
      mapGet (SignUp env2 r2 (SignUp env r s).2).2.users u =
        some { Username := u, Password := h2 } ∧
      mapCount (SignUp env2 r2 (SignUp env r s).2).2.users u = 1) := by
  rw [SignUp_ok env r s u p h hbody hhash]
  refine ⟨rfl, mapGet_mapSet_self _ _ _, mapCount_mapSet_self _ _ _, ?_, rfl, rfl, ?_⟩
  · intro v hv
    exact ⟨mapGet_mapSet_ne _ _ _ _ hv, mapCount_mapSet_ne _ _ _ _ hv⟩
  · intro env2 r2 p2 h2 hbody2 hhash2
    rw [SignUp_ok env2 r2 _ u p2 h2 hbody2 hhash2]
    exact ⟨rfl, mapGet_mapSet_self _ _ _, mapCount_mapSet_self _ _ _⟩

/-- Alice registers with `pw1` in the initial store, then again with `pw2`. -/
theorem SignUp_overwrites_witness :
    (credsReq "alice" "pw1").credsBody = some { Username := "alice", Password := "pw1" } ∧
    demoEnv.generateFromPassword "pw1" = some "h:pw1" ∧
    mapGet (SignUp demoEnv (credsReq "alice" "pw1") initStore).2.users "alice" =
      some { Username := "alice", Password := "h:pw1" } ∧
    mapGet (SignUp demoEnv (credsReq "alice" "pw2")
        (SignUp demoEnv (credsReq "alice" "pw1") initStore).2).2.users "alice" =
      some { Username := "alice", Password := "h:pw2" } ∧
    mapCount (SignUp demoEnv (credsReq "alice" "pw2")
        (SignUp demoEnv (credsReq "alice" "pw1") initStore).2).2.users "alice" = 1 :=
  ⟨rfl, by decide,
   (SignUp_overwrites demoEnv (credsReq "alice" "pw1") initStore "alice" "pw1" "h:pw1"
      rfl (by decide)).2.1,
   ((SignUp_overwrites demoEnv (credsReq "alice" "pw1") initStore "alice" "pw1" "h:pw1"
      rfl (by decide)).2.2.2.2.2.2 demoEnv (credsReq "alice" "pw2") "pw2" "h:pw2"
      rfl (by decide)).2⟩

/-- C8. With a hash comparison that accepts exactly the password that was hashed:
after `SignUp` of `u` with `p`, `SignIn` of `u` with `p` is not rejected and, the
signing giving the token `tok`, sets the cookie `token` to it, expiring five minutes
later; `SignIn` of `u` with any other password is answered 401; and in any store
`SignIn` of a username without account is answered 401 whatever the password and the
comparison. A rejected `SignIn` sets no cookie, and no `SignIn` changes the store. -/
theorem SignIn_credential_check (envUp envIn : Env) (rUp : Request) (s : Store)
    (u p h : String)
    (hUp : rUp.credsBody = some { Username := u, Password := p })
    (hhash : envUp.generateFromPassword p = some h)
    (hcmp : ∀ q : String, envIn.compareHashAndPassword h q = true ↔ q = p) :
    (∀ (rIn : Request) (tok : String),
      rIn.credsBody = some { Username := u, Password := p } →
      envIn.signedString { Username := u, ExpiresAt := unixSeconds (expirationTime envIn) }
        = some tok →
      SignIn envIn rIn (SignUp envUp rUp s).2 =
        ({ status := none, body := none,
           cookie := some { Name := "token", Value := tok,
                            Expires := envIn.now + 300000000000 } },
          (SignUp envUp rUp s).2)) ∧
    (∀ rIn : Request, rIn.credsBody = some { Username := u, Password := p } →
      (SignIn envIn rIn (SignUp envUp rUp s).2).1.status ≠ some 401 ∧
      (SignIn envIn rIn (SignUp envUp rUp s).2).2 = (SignUp envUp rUp s).2) ∧
    (∀ (rIn : Request) (q : String),
      rIn.credsBody = some { Username := u, Password := q } → q ≠ p →
      SignIn envIn rIn (SignUp envUp rUp s).2 =
        ({ status := some 401, body := some (Body.text "Invalid username or password"),
           cookie := none }, (SignUp envUp rUp s).2)) ∧
    (∀ (e : Env) (t : Store) (rIn : Request) (v q : String),
      rIn.credsBody = some { Username := v, Password := q } → mapGet t.users v = none →
      SignIn e rIn t =
        ({ status := some 401, body := some (Body.text "Invalid username or password"),
           cookie := none }, t)) := by
  have hs := SignUp_ok envUp rUp s u p h hUp hhash
  have hget : mapGet (SignUp envUp rUp s).2.users u = some { Username := u, Password := h } := by
    rw [hs]
    exact mapGet_mapSet_self _ _ _
  refine ⟨?_, ?_, ?_, ?_⟩
  · intro rIn tok hIn hsign
    rw [SignIn_accepted envIn rIn _ u p _ hIn hget ((hcmp p).mpr rfl), hsign]
    simp [setCookie, ResponseWriter.fresh, expirationTime]
  · intro rIn hIn
    rw [SignIn_accepted envIn rIn _ u p _ hIn hget ((hcmp p).mpr rfl)]
    cases envIn.signedString { Username := u, ExpiresAt := unixSeconds (expirationTime envIn) } with
    | none => simp [httpError]
    | some tok => simp [setCookie, ResponseWriter.fresh]
  · intro rIn q hIn hq
    have hrej : ∀ user : User, mapGet (SignUp envUp rUp s).2.users u = some user →
        envIn.compareHashAndPassword user.Password q = false := by
      intro user huser
      rw [hget] at huser
      cases huser
      cases hc : envIn.compareHashAndPassword h q with
      | false => rfl
      | true => exact absurd ((hcmp q).mp hc) hq
    rw [SignIn_rejected envIn rIn _ u q hIn hrej]
    rfl
  · intro e t rIn v q hIn hnone
    have hrej : ∀ user : User, mapGet t.users v = some user →
        e.compareHashAndPassword user.Password q = false := by
      intro user huser
      rw [hnone] at huser
      cases huser
    rw [SignIn_rejected e rIn t v q hIn hrej]
    rfl

/-- The comparison of the example environment accepts exactly the hashed password. -/
theorem demoEnv_compare_pw1 (q : String) :
    demoEnv.compareHashAndPassword "h:pw1" q = true ↔ q = "pw1" := by
  have hiff : "h:pw1" = "h:" ++ q ↔ q = "pw1" := by
    constructor
    · intro hq
      have h := congrArg String.data hq
      rw [String.data_append] at h
      apply String.ext
      have h2 : "h:pw1".data = "h:".data ++ "pw1".data := by decide
      rw [h2] at h
      exact (List.append_cancel_left h).symm
    · intro hq
      subst hq
      decide
  simpa [demoEnv] using hiff

/-- Alice registers with `pw1`: she signs in with `pw1`, not with `pw2`, and bob,
who has no account, does not sign in. -/
theorem SignIn_credential_check_witness :
    SignIn demoEnv (credsReq "alice" "pw1") (SignUp demoEnv (credsReq "alice" "pw1") initStore).2 =
      ({ status := none, body := none,
         cookie := some { Name := "token", Value := "t:alice",
                          Expires := demoEnv.now + 300000000000 } },
        (SignUp demoEnv (credsReq "alice" "pw1") initStore).2) ∧
    SignIn demoEnv (credsReq "alice" "pw2") (SignUp demoEnv (credsReq "alice" "pw1") initStore).2 =
      ({ status := some 401, body := some (Body.text "Invalid username or password"),
         cookie := none }, (SignUp demoEnv (credsReq "alice" "pw1") initStore).2) ∧
    SignIn demoEnv (credsReq "bob" "pw1") initStore =
      ({ status := some 401, body := some (Body.text "Invalid username or password"),
         cookie := none }, initStore) :=
  have hcmp := demoEnv_compare_pw1
  ⟨(SignIn_credential_check demoEnv demoEnv (credsReq "alice" "pw1") initStore
      "alice" "pw1" "h:pw1" rfl (by decide) hcmp).1 (credsReq "alice" "pw1") "t:alice"
      rfl (by decide),
   (SignIn_credential_check demoEnv demoEnv (credsReq "alice" "pw1") initStore
      "alice" "pw1" "h:pw1" rfl (by decide) hcmp).2.2.1 (credsReq "alice" "pw2") "pw2"
      rfl (by decide),
   (SignIn_credential_check demoEnv demoEnv (credsReq "alice" "pw1") initStore
      "alice" "pw1" "h:pw1" rfl (by decide) hcmp).2.2.2 demoEnv initStore
      (credsReq "bob" "pw1") "bob" "pw1" rfl rfl⟩

/-! ## Identity comes from the token -/

/-- C6. For an authenticated non-empty username `u`, two comment payloads with the
same content, and two post payloads with the same title and content, whatever their
`id`, `author`, `created_at` and `comments` fields: `AddComment` answers and stores
the same with either comment payload, `CreatePost` answers and stores the same with
either post payload, and the post and the comment answered and stored have `u` as
author. -/
theorem identity_not_client_supplied (env : Env) (r : Request) (s : Store) (u : String)
    (c1 c2 : Comment) (p1 p2 : Post)
    (hgate : (getUsernameFromRequest env r ResponseWriter.fresh).2 = u) (hu : u ≠ "")
    (hc : c1.Content = c2.Content) (hpt : p1.Title = p2.Title)
    (hpc : p1.Content = p2.Content) :
    AddComment env { r with commentBody := some c1 } s =
      AddComment env { r with commentBody := some c2 } s ∧
    CreatePost env { r with postBody := some p1 } s =
      CreatePost env { r with postBody := some p2 } s ∧
    (∃ p : Post,
      (CreatePost env { r with postBody := some p1 } s).1.body = some (Body.post p) ∧
      mapGet (CreatePost env { r with postBody := some p1 } s).2.posts s.nextID = some p ∧
      p.Author = u) ∧
    (∀ (pid : Int) (post : Post), r.postID = some pid → mapGet s.posts pid = some post →
      ∃ c : Comment,
        (AddComment env { r with commentBody := some c1 } s).1.body = some (Body.comment c) ∧
        (mapGet (AddComment env { r with commentBody := some c1 } s).2.posts pid).map
          Post.Comments = some (post.Comments ++ [c]) ∧
        c.Author = u) := by
  subst hgate
  have hgc : ∀ c : Comment,
      (getUsernameFromRequest env { r with commentBody := some c } ResponseWriter.fresh).2 ≠ "" :=
    fun _ => hu
  have hgp : ∀ p : Post,
      (getUsernameFromRequest env { r with postBody := some p } ResponseWriter.fresh).2 ≠ "" :=
    fun _ => hu
  refine ⟨?_, ?_, ?_, ?_⟩
  · rcases Option.eq_none_or_eq_some r.postID with hid | ⟨pid, hid⟩
    · rw [AddComment_of_no_id env { r with commentBody := some c1 } s (hgc c1) hid,
        AddComment_of_no_id env { r with commentBody := some c2 } s (hgc c2) hid]
    · rcases Option.eq_none_or_eq_some (mapGet s.posts pid) with hp | ⟨post, hp⟩
      · rw [AddComment_of_not_found env { r with commentBody := some c1 } s pid c1 (hgc c1)
            hid rfl hp,
          AddComment_of_not_found env { r with commentBody := some c2 } s pid c2 (hgc c2)
            hid rfl hp]
      · rw [AddComment_ok env { r with commentBody := some c1 } s pid c1 post (hgc c1)
            hid rfl hp,
          AddComment_ok env { r with commentBody := some c2 } s pid c2 post (hgc c2)
            hid rfl hp, hc]
        rfl
  · rw [CreatePost_ok env { r with postBody := some p1 } s p1 (hgp p1) rfl,
      CreatePost_ok env { r with postBody := some p2 } s p2 (hgp p2) rfl, hpt, hpc]
    rfl
  · rw [CreatePost_ok env { r with postBody := some p1 } s p1 (hgp p1) rfl]
    exact ⟨_, rfl, mapGet_mapSet_self _ _ _, rfl⟩
  · intro pid post hid hp
    rw [AddComment_ok env { r with commentBody := some c1 } s pid c1 post (hgc c1) hid rfl hp]
    refine ⟨_, rfl, ?_, rfl⟩
    simp only [mapGet_mapSet_self, Option.map]

/-- Alice's comment and post with and without fields forged by the client. -/
theorem identity_not_client_supplied_witness :
    AddComment demoEnv { aliceComment with commentBody := some nicePayload } onePostStore =
      AddComment demoEnv { aliceComment with commentBody := some nicePlain } onePostStore ∧
    CreatePost demoEnv { aliceComment with postBody := some helloPayload } onePostStore =
      CreatePost demoEnv { aliceComment with postBody := some helloPlain } onePostStore ∧
    (AddComment demoEnv { aliceComment with commentBody := some nicePayload } onePostStore).1.body =
      some (Body.comment
        { ID := 1, Content := "nice", Author := "alice", CreatedAt := demoEnv.now }) :=
  ⟨(identity_not_client_supplied demoEnv aliceComment onePostStore "alice"
      nicePayload nicePlain helloPayload helloPlain (by decide) (by decide) rfl rfl rfl).1,
   (identity_not_client_supplied demoEnv aliceComment onePostStore "alice"
      nicePayload nicePlain helloPayload helloPlain (by decide) (by decide) rfl rfl rfl).2.1,
   by decide⟩

/-! ## The store invariant -/

theorem idsUpTo_succ (n : Nat) : idsUpTo (n + 1) = idsUpTo n ++ [(n : Int) + 1] := by
  simp [idsUpTo, List.range_succ]

theorem idsUpTo_length (n : Nat) : (idsUpTo n).length = n := by
  unfold idsUpTo
  rw [List.length_map, List.length_range]

theorem StoreInv_init : StoreInv initStore where
  nextID_pos := by simp [initStore]
  keys := by
    intro k
    simp only [initStore, mapGet, Option.isSome_none]
    constructor
    · intro h
      cases h
    · intro h
      omega
  keys_once := by
    intro k
    simp [initStore, mapCount]
  id_eq_key := by
    intro k p h
    simp [initStore, mapGet] at h
  comment_ids := by
    intro k p h
    simp [initStore, mapGet] at h

/-- The invariant does not look at the accounts. -/
theorem StoreInv_of_posts_eq (s t : Store) (h : StoreInv s) (hp : t.posts = s.posts)
    (hn : t.nextID = s.nextID) : StoreInv t where
  nextID_pos := by rw [hn]; exact h.nextID_pos
  keys := by rw [hn, hp]; exact h.keys
  keys_once := by rw [hp]; exact h.keys_once
  id_eq_key := by rw [hp]; exact h.id_eq_key
  comment_ids := by rw [hp]; exact h.comment_ids

/-- The critical section of `CreatePost` keeps the invariant when the post carries
the counter as its id and no comments. -/
theorem StoreInv_createPostCommit (s : Store) (post : Post) (h : StoreInv s)
    (hid : post.ID = s.nextID) (hc : post.Comments = []) :
    StoreInv (createPostCommit post s) where
  nextID_pos := by
    have := h.nextID_pos
    simp only [createPostCommit]
    omega
  keys := by
    intro k
    have hpos := h.nextID_pos
    simp only [createPostCommit]
    by_cases hk : k = s.nextID
    · subst hk
      rw [mapGet_mapSet_self]
      simp only [Option.isSome_some, true_iff]
      omega
    · rw [mapGet_mapSet_ne _ _ _ _ hk, h.keys k]
      omega
  keys_once := by
    intro k
    simp only [createPostCommit]
    by_cases hk : k = s.nextID
    · subst hk
      rw [mapCount_mapSet_self]
    · rw [mapCount_mapSet_ne _ _ _ _ hk]
      exact h.keys_once k
  id_eq_key := by
    intro k p hp
    simp only [createPostCommit] at hp
    by_cases hk : k = s.nextID
    · subst hk
      rw [mapGet_mapSet_self] at hp
      cases hp
      exact hid
    · rw [mapGet_mapSet_ne _ _ _ _ hk] at hp
      exact h.id_eq_key k p hp
  comment_ids := by
    intro k p hp
    simp only [createPostCommit] at hp
    by_cases hk : k = s.nextID
    · subst hk
      rw [mapGet_mapSet_self] at hp
      cases hp
      rw [hc]
      rfl
    · rw [mapGet_mapSet_ne _ _ _ _ hk] at hp
      exact h.comment_ids k p hp

/-- The critical section of `AddComment` keeps the invariant. -/
theorem StoreInv_appendComment (s : Store) (pid : Int) (post : Post) (c : Comment)
    (h : StoreInv s) (hpost : mapGet s.posts pid = some post)
    (hid : c.ID = (post.Comments.length : Int) + 1) :
    StoreInv { s with posts := mapSet s.posts pid
                        { post with Comments := post.Comments ++ [c] } } where
  nextID_pos := h.nextID_pos
  keys := by
    intro k
    show (mapGet (mapSet s.posts pid _) k).isSome ↔ (1 ≤ k ∧ k < s.nextID)
    by_cases hk : k = pid
    · subst hk
      rw [mapGet_mapSet_self, ← h.keys k, hpost]
      simp
    · rw [mapGet_mapSet_ne _ _ _ _ hk]
      exact h.keys k
  keys_once := by
    intro k
    show mapCount (mapSet s.posts pid _) k ≤ 1
    by_cases hk : k = pid
    · subst hk
      rw [mapCount_mapSet_self]
    · rw [mapCount_mapSet_ne _ _ _ _ hk]
      exact h.keys_once k
  id_eq_key := by
    intro k p hp
    change mapGet (mapSet s.posts pid _) k = some p at hp
    by_cases hk : k = pid
    · subst hk
      rw [mapGet_mapSet_self] at hp
      cases hp
      exact h.id_eq_key k post hpost
    · rw [mapGet_mapSet_ne _ _ _ _ hk] at hp
      exact h.id_eq_key k p hp
  comment_ids := by
    intro k p hp
    change mapGet (mapSet s.posts pid _) k = some p at hp
    by_cases hk : k = pid
    · subst hk
      rw [mapGet_mapSet_self] at hp
      cases hp
      have hold := h.comment_ids k post hpost
      simp only [List.map_append, List.length_append, List.map_cons, List.map_nil,
        List.length_singleton, idsUpTo_succ, hold, hid]
    · rw [mapGet_mapSet_ne _ _ _ _ hk] at hp
      exact h.comment_ids k p hp

/-- What `CreatePost` does to the store: nothing, or its critical section with a
post that carries the counter as id and no comments. -/
theorem CreatePost_store_cases (env : Env) (r : Request) (s : Store) :
    (CreatePost env r s).2 = s ∨
    ∃ post : Post, post.ID = s.nextID ∧ post.Comments = [] ∧
      (CreatePost env r s).2 = createPostCommit post s := by
  by_cases hg : (getUsernameFromRequest env r ResponseWriter.fresh).2 = ""
  · left
    rw [CreatePost_of_empty env r s hg]
  · rcases Option.eq_none_or_eq_some r.postBody with hb | ⟨payload, hb⟩
    · left
      rw [CreatePost_of_no_payload env r s hg hb]
    · right
      rw [CreatePost_ok env r s payload hg hb]
      exact ⟨_, rfl, rfl, rfl⟩

/-- What `AddComment` does: it fails and leaves the store, or it answers 201 with a
comment numbered one above the comments of the post, appended to them. -/
theorem AddComment_cases (env : Env) (r : Request) (s : Store) :
    ((AddComment env r s).1.status ≠ some 201 ∧ (AddComment env r s).2 = s) ∨
    ∃ (pid : Int) (post : Post) (c : Comment),
      r.postID = some pid ∧ mapGet s.posts pid = some post ∧
      c.ID = (post.Comments.length : Int) + 1 ∧
      (AddComment env r s).1 =
        { status := some 201, body := some (Body.comment c), cookie := none } ∧
      (AddComment env r s).2 =
        { s with posts := mapSet s.posts pid
                   { post with Comments := post.Comments ++ [c] } } := by
  by_cases hg : (getUsernameFromRequest env r ResponseWriter.fresh).2 = ""
  · left
    rw [AddComment_of_empty env r s hg]
    exact ⟨gate_status_ne_created env r, rfl⟩
  · rcases Option.eq_none_or_eq_some r.postID with hid | ⟨pid, hid⟩
    · left
      rw [AddComment_of_no_id env r s hg hid]
      exact ⟨by simp [httpError], rfl⟩
    · rcases Option.eq_none_or_eq_some r.commentBody with hb | ⟨payload, hb⟩
      · left
        rw [AddComment_of_no_payload env r s pid hg hid hb]
        exact ⟨by simp [httpError], rfl⟩
      · rcases Option.eq_none_or_eq_some (mapGet s.posts pid) with hp | ⟨post, hp⟩
        · left
          rw [AddComment_of_not_found env r s pid payload hg hid hb hp]
          exact ⟨by simp [httpError], rfl⟩
        · right
          rw [AddComment_ok env r s pid payload post hg hid hb hp]
          exact ⟨pid, post, _, hid, hp, rfl, rfl, rfl⟩

/-- Every handler keeps the invariant. -/
theorem serve_StoreInv (c : Call) (s : Store) (h : StoreInv s) : StoreInv (serve c s).2 := by
  unfold serve
  cases c.route with
  | signUp =>
    refine StoreInv_of_posts_eq s _ h ?_ ?_
    · simp only [SignUp]
      split
      · rfl
      · split <;> rfl
    · simp only [SignUp]
      split
      · rfl
      · split <;> rfl
  | signIn =>
    have hs : (SignIn c.env c.req s).2 = s := by
      simp only [SignIn]
      split
      · rfl
      · split
        · rfl
        · split <;> rfl
    simp only [hs]
    exact h
  | createPost =>
    rcases CreatePost_store_cases c.env c.req s with hs | ⟨post, hid, hc, hs⟩
    · simp only [hs]
      exact h
    · simp only [hs]
      exact StoreInv_createPostCommit s post h hid hc
  | getPosts => exact h
  | addComment =>
    rcases AddComment_cases c.env c.req s with ⟨_, hs⟩ | ⟨pid, post, cm, _, hp, hid, _, hs⟩
    · simp only [hs]
      exact h
    · simp only [hs]
      exact StoreInv_appendComment s pid post cm h hp hid

theorem serve_nextID_le (c : Call) (s : Store) : s.nextID ≤ (serve c s).2.nextID := by
  unfold serve
  cases c.route with
  | signUp =>
    simp only [SignUp]
    split
    · exact le_refl _
    · split <;> exact le_refl _
  | signIn =>
    simp only [SignIn]
    split
    · exact le_refl _
    · split
      · exact le_refl _
      · split <;> exact le_refl _
  | createPost =>
    rcases CreatePost_store_cases c.env c.req s with hs | ⟨post, _, _, hs⟩
    · simp only [hs]
      exact le_refl _
    · simp only [hs, createPostCommit]
      omega
  | getPosts => exact le_refl _
  | addComment =>
    rcases AddComment_cases c.env c.req s with ⟨_, hs⟩ | ⟨pid, post, cm, _, _, _, _, hs⟩
    · simp only [hs]
      exact le_refl _
    · simp only [hs]
      exact le_refl _

theorem run_append (s : Store) (a b : List Call) : run s (a ++ b) = run (run s a) b := by
  induction a generalizing s with
  | nil => rfl
  | cons c cs ih => exact ih (serve c s).2

theorem run_StoreInv (calls : List Call) (s : Store) (h : StoreInv s) :
    StoreInv (run s calls) := by
  induction calls generalizing s with
  | nil => exact h
  | cons c cs ih => exact ih (serve c s).2 (serve_StoreInv c s h)

theorem run_nextID_le (calls : List Call) (s : Store) : s.nextID ≤ (run s calls).nextID := by
  induction calls generalizing s with
  | nil => exact le_refl _
  | cons c cs ih => exact le_trans (serve_nextID_le c s) (ih (serve c s).2)

/-- C7. In every store reached from the initial one by serving `SignUp`, `SignIn`,
`CreatePost`, `GetPosts` and `AddComment` requests one after the other: `nextID` is at
least 1 and does not decrease as more requests are served; the keys of the posts are
exactly the integers from 1 to `nextID - 1`, each stored once, and stay keys from then
on; every stored post carries its key as id; and the comments of every post carry the
ids 1, 2, ..., n in sequence order. -/
theorem store_id_invariant (calls more : List Call) :
    1 ≤ (run initStore calls).nextID ∧
    (run initStore calls).nextID ≤ (run initStore (calls ++ more)).nextID ∧
    (∀ k : Int, (mapGet (run initStore calls).posts k).isSome ↔
      (1 ≤ k ∧ k < (run initStore calls).nextID)) ∧
    (∀ k : Int, mapCount (run initStore calls).posts k ≤ 1) ∧
    (∀ (k : Int) (p : Post), mapGet (run initStore calls).posts k = some p →
      p.ID = k ∧ p.Comments.map Comment.ID = idsUpTo p.Comments.length) ∧
    (∀ k : Int, (mapGet (run initStore calls).posts k).isSome →
      (mapGet (run initStore (calls ++ more)).posts k).isSome) := by
  have h := run_StoreInv calls initStore StoreInv_init
  have h2 := run_StoreInv (calls ++ more) initStore StoreInv_init
  have hle : (run initStore calls).nextID ≤ (run initStore (calls ++ more)).nextID := by
    rw [run_append]
    exact run_nextID_le more _
  refine ⟨h.nextID_pos, hle, h.keys, h.keys_once, ?_, ?_⟩
  · intro k p hp
    exact ⟨h.id_eq_key k p hp, h.comment_ids k p hp⟩
  · intro k hk
    have hk1 := (h.keys k).mp hk
    exact (h2.keys k).mpr ⟨hk1.1, lt_of_lt_of_le hk1.2 hle⟩

/-- The invariant after the example calls: the post under key 1 has id 1 and two
comments numbered 1 and 2, and key 2 stays a key after one more post. -/
theorem store_id_invariant_witness :
    (∃ p : Post, mapGet (run initStore demoCalls).posts 1 = some p ∧
      p.ID = 1 ∧ p.Comments.map Comment.ID = [1, 2]) ∧
    (mapGet (run initStore (demoCalls ++ moreCalls)).posts 2).isSome :=
  ⟨⟨{ ID := 1, Title := "Hello", Content := "World", Author := "alice",
      CreatedAt := demoEnv.now,
      Comments := [{ ID := 1, Content := "nice", Author := "alice", CreatedAt := demoEnv.now },
                   { ID := 2, Content := "nice", Author := "alice", CreatedAt := demoEnv.now }] },
     by decide,
     ((store_id_invariant demoCalls moreCalls).2.2.2.2.1 1 _ (by decide)).1,
     ((store_id_invariant demoCalls moreCalls).2.2.2.2.1 1 _ (by decide)).2⟩,
   (store_id_invariant demoCalls moreCalls).2.2.2.2.2 2 (by decide)⟩

/-! ## Comment ids along a sequence of requests -/

theorem commentCount_of_some (s : Store) (pid : Int) (p : Post)
    (h : mapGet s.posts pid = some p) : commentCount s pid = p.Comments.length := by
  simp only [commentCount, h]

theorem commentCount_of_posts_eq (s t : Store) (pid : Int) (h : t.posts = s.posts) :
    commentCount t pid = commentCount s pid := by
  simp only [commentCount, h]

/-- A successful `AddComment` on post `pid` answers with the number of comments of
the post plus one and leaves the post with one comment more. -/
theorem serve_addComment_on (c : Call) (s : Store) (pid : Int)
    (hr : c.route = Route.addComment) (hid : c.req.postID = some pid)
    (hst : (serve c s).1.status = some 201) :
    ∃ cm : Comment, (serve c s).1.body = some (Body.comment cm) ∧
      cm.ID = (commentCount s pid : Int) + 1 ∧
      commentCount (serve c s).2 pid = commentCount s pid + 1 := by
  have hserve : serve c s = AddComment c.env c.req s := by
    simp only [serve, hr]
  rw [hserve] at hst ⊢
  rcases AddComment_cases c.env c.req s with ⟨hne, _⟩ | ⟨pid', post, cm, hid', hp, hcm, hw, hs⟩
  · exact absurd hst hne
  · rw [hid] at hid'
    cases hid'
    refine ⟨cm, ?_, ?_, ?_⟩
    · rw [hw]
    · rw [commentCount_of_some s pid post hp]
      exact hcm
    · rw [hs, commentCount_of_some s pid post hp]
      rw [commentCount_of_some _ pid { post with Comments := post.Comments ++ [cm] }
        (mapGet_mapSet_self _ _ _)]
      simp

/-- Any other call leaves the number of comments of post `pid` as it is. -/
theorem serve_commentCount_of_other (c : Call) (s : Store) (pid : Int) (h : StoreInv s)
    (hno : ¬ (c.route = Route.addComment ∧ c.req.postID = some pid ∧
      (serve c s).1.status = some 201)) :
    commentCount (serve c s).2 pid = commentCount s pid := by
  cases hr : c.route with
  | signUp =>
    apply commentCount_of_posts_eq
    simp only [serve, hr, SignUp]
    split
    · rfl
    · split <;> rfl
  | signIn =>
    apply commentCount_of_posts_eq
    simp only [serve, hr, SignIn]
    split
    · rfl
    · split
      · rfl
      · split <;> rfl
  | getPosts =>
    apply commentCount_of_posts_eq
    simp only [serve, hr, GetPosts]
  | createPost =>
    have hserve : serve c s = CreatePost c.env c.req s := by
      simp only [serve, hr]
    rw [hserve]
    rcases CreatePost_store_cases c.env c.req s with hs | ⟨post, _, hc, hs⟩
    · rw [hs]
    · rw [hs]
      by_cases hk : pid = s.nextID
      · have hnone : mapGet s.posts pid = none := by
          cases hm : mapGet s.posts pid with
          | none => rfl
          | some p =>
            have hlt := ((h.keys pid).mp (by simp [hm])).2
            omega
        have hnew : mapGet (createPostCommit post s).posts pid = some post := by
          simp only [createPostCommit, hk]
          exact mapGet_mapSet_self _ _ _
        rw [commentCount_of_some _ pid post hnew]
        simp only [commentCount, hnone, hc, List.length_nil]
      · simp only [commentCount, createPostCommit, mapGet_mapSet_ne _ _ _ _ hk]
  | addComment =>
    have hserve : serve c s = AddComment c.env c.req s := by
      simp only [serve, hr]
    rw [hserve] at hno ⊢
    rcases AddComment_cases c.env c.req s with
      ⟨_, hs⟩ | ⟨pid', post, cm, hid', hp, hcm, hw, hs⟩
    · rw [hs]
    · have hk : pid ≠ pid' := by
        intro hk
        subst hk
        exact hno ⟨hr, hid', by rw [hw]⟩
      rw [hs]
      simp only [commentCount, mapGet_mapSet_ne _ _ _ _ hk]

/-- From a store that satisfies the invariant, the successful `AddComment` calls on
post `pid` are answered with consecutive ids that go on from the number of comments
the post has. -/
theorem commentIDsOn_from (pid : Int) (calls : List Call) :
    ∀ s : Store, StoreInv s →
      commentIDsOn pid s calls =
        (List.range (commentIDsOn pid s calls).length).map
          (fun (i : Nat) => (commentCount s pid : Int) + (i : Int) + 1) := by
  induction calls with
  | nil =>
    intro s _
    rfl
  | cons c cs ih =>
    intro s h
    have hih := ih (serve c s).2 (serve_StoreInv c s h)
    by_cases hcond : c.route = Route.addComment ∧ c.req.postID = some pid ∧
        (serve c s).1.status = some 201
    · obtain ⟨cm, hbody, hcm, hcount⟩ := serve_addComment_on c s pid hcond.1 hcond.2.1 hcond.2.2
      have hunf : commentIDsOn pid s (c :: cs) = cm.ID :: commentIDsOn pid (serve c s).2 cs := by
        simp only [commentIDsOn, hcond, hbody, and_self, if_true]
      rw [hunf, List.length_cons, List.range_succ_eq_map, List.map_cons, List.map_map, hcm]
      rw [hih, hcount]
      simp only [List.length_map, List.length_range, Nat.cast_zero, add_zero, List.cons.injEq,
        true_and]
      apply List.map_congr_left
      intro i _
      simp only [Function.comp, Nat.succ_eq_add_one]
      push_cast
      ring
    · have hunf : commentIDsOn pid s (c :: cs) = commentIDsOn pid (serve c s).2 cs := by
        simp only [commentIDsOn, hcond, if_false]
      rw [hunf, ← serve_commentCount_of_other c s pid h hcond]
      exact hih

/-- C2. `AddComment` served on its own, for a non-empty username `u` returned by the
gate, an id `pid` that parses and a payload that decodes: when `pid` is not a key of
the store the answer is 404 and the store stays; otherwise the answer is 201 with a
comment `c` whose id is the number of comments of the post plus one and whose author
is `u`, the comments of the post become the old ones followed by `c`, and every other
post, `nextID` and the accounts are as before. Along any sequence of requests served
from the initial store, the successful `AddComment` calls on a post are answered with
the ids 1, 2, 3, ... in this order, whatever the other requests are. -/
theorem AddComment_contract (env : Env) (r : Request) (s : Store) (u : String) (pid : Int)
    (payload : Comment)
    (hgate : (getUsernameFromRequest env r ResponseWriter.fresh).2 = u) (hu : u ≠ "")
    (hid : r.postID = some pid) (hbody : r.commentBody = some payload) :
    (mapGet s.posts pid = none →
      AddComment env r s =
        ({ status := some 404, body := some (Body.text "Post not found"), cookie := none }, s)) ∧
    (∀ post : Post, mapGet s.posts pid = some post →
      ∃ c : Comment,
        (AddComment env r s).1 =
          { status := some 201, body := some (Body.comment c), cookie := none } ∧
        c.ID = (post.Comments.length : Int) + 1 ∧ c.Author = u ∧
        c.Content = payload.Content ∧ c.CreatedAt = env.now ∧
        mapGet (AddComment env r s).2.posts pid =
          some { post with Comments := post.Comments ++ [c] } ∧
        (∀ k : Int, k ≠ pid → mapGet (AddComment env r s).2.posts k = mapGet s.posts k) ∧
        (AddComment env r s).2.nextID = s.nextID ∧
        (AddComment env r s).2.users = s.users) ∧
    (∀ (calls : List Call) (post : Int),
      commentIDsOn post initStore calls = idsUpTo (commentIDsOn post initStore calls).length) := by
  subst hgate
  refine ⟨?_, ?_, ?_⟩
  · intro hp
    rw [AddComment_of_not_found env r s pid payload hu hid hbody hp]
    rfl
  · intro post hp
    rw [AddComment_ok env r s pid payload post hu hid hbody hp]
    refine ⟨_, rfl, rfl, rfl, rfl, rfl, mapGet_mapSet_self _ _ _, ?_, rfl, rfl⟩
    intro k hk
    exact mapGet_mapSet_ne _ _ _ _ hk
  · intro calls post
    have h := commentIDsOn_from post calls initStore StoreInv_init
    have h0 : commentCount initStore post = 0 := rfl
    rw [h0] at h
    unfold idsUpTo
    refine h.trans ?_
    apply List.map_congr_left
    intro i _
    simp

/-- Alice's comment on a post without comments gets id 1, her comment on the unknown
post 5 is answered 404, and along the example calls her two comments on post 1 are
answered with the ids 1 and 2. -/
theorem AddComment_contract_witness :
    AddComment demoEnv aliceCommentFive onePostStore =
      ({ status := some 404, body := some (Body.text "Post not found"), cookie := none },
        onePostStore) ∧
    (∃ c : Comment,
      (AddComment demoEnv aliceComment onePostStore).1 =
        { status := some 201, body := some (Body.comment c), cookie := none } ∧
      c.ID = 1 ∧ c.Author = "alice") ∧
    commentIDsOn 1 initStore demoCalls = [1, 2] :=
  ⟨(AddComment_contract demoEnv aliceCommentFive onePostStore "alice" 5 nicePayload
      (by decide) (by decide) rfl rfl).1 (by decide),
   (fun ⟨c, h1, h2, h3, _⟩ => ⟨c, h1, h2, h3⟩)
     ((AddComment_contract demoEnv aliceComment onePostStore "alice" 1 nicePayload
        (by decide) (by decide) rfl rfl).2.1
        { ID := 1, Title := "Hello", Content := "World", Author := "alice",
          CreatedAt := demoEnv.now, Comments := [] } (by decide)),
   by decide⟩

/-! ## Concurrent `CreatePost` -/

/-- A goroutine that takes its two steps without interference serves `CreatePost`. -/
theorem runSchedule_alone (env : Env) (r : Request) (s : Store) :
    runSchedule [(env, r)] [0, 0] s =
      ([ThreadState.done (CreatePost env r s).1], (CreatePost env r s).2) := by
  simp only [runSchedule, List.foldl, schedStep, List.map, List.get?, List.set, threadStep,
    CreatePost]
  cases createPostPrepare env r s with
  | mk w o =>
    cases o with
    | none => rfl
    | some post => rfl

/-- C5 fails on the code. Two authenticated `CreatePost` requests run concurrently
from the initial store, both reading `store.nextID` at line 132 before either enters
the critical section of line 136: both callers are answered with id 1, and the store
ends with the keys 1 and 2 both holding a post of id 1, the counter being 3. Served
one after the other the same requests are answered with the ids 1 and 2. -/
theorem concurrent_CreatePost_duplicate_id :
    (runSchedule raceReqs raceSchedule initStore).1.map respondedID = [some 1, some 1] ∧
    (runSchedule raceReqs raceSchedule initStore).2.posts.map (fun e => (e.1, e.2.ID, e.2.Author)) =
      [(2, 1, "bob"), (1, 1, "alice")] ∧
    (runSchedule raceReqs raceSchedule initStore).2.nextID = 3 ∧
    (runSchedule raceReqs serialSchedule initStore).1.map respondedID = [some 1, some 2] := by
  decide

end BlogApi
